import Mathlib

/-!
UUST-Schedule: verification of the schedule translation layer.

Shallow embedding of `src/uust_schedule/__init__.py`.  The schedule code is
pure apart from the HTTP fetch and the HTML parse; we model the parsed HTML
table as a list of rows (each row carrying its class list and the text of its
`td` cells, exactly what the Python code reads through BeautifulSoup), and we
model CPython `datetime` arithmetic over the proleptic Gregorian calendar.

Timezone note: the code pins every datetime to the fixed zone
"Asia/Yekaterinburg" and only ever adds/subtracts `timedelta`s, which in
Python is wall-clock arithmetic (the `tzinfo` is carried along unchanged and
the zone has a constant offset).  An aware datetime is therefore modelled as
its wall-clock minute count: `ordinal * 1440 + minute_of_day`, where
`ordinal` is CPython's `date.toordinal()` (0001-01-01 has ordinal 1).

Failure model: Python exceptions are modelled with `Except PyError`.  A
generator that raises after yielding some events is modelled as a single
`Except` value (the events yielded before the exception are not observable in
the model; no claim below depends on partial yields).
-/

set_option autoImplicit false

deriving instance DecidableEq for Except

namespace UUST

/-- Python exceptions raised by the schedule code: `ValueError` (including
`list.index` misses, `int()` parse failures, enum construction failures and
`datetime` range errors), `IndexError` (sequence subscript out of range), and
the module's own `SemesterTypeNotFoundError` subclass of `ValueError`
(modelled as a separate constructor because callers can distinguish it). -/
inductive PyError where
  | valueError (msg : String)
  | indexError
  | semesterTypeNotFoundError
  deriving DecidableEq, Repr

/-! ## CPython proleptic Gregorian calendar (`datetime.date` internals) -/

/-- Gregorian leap-year test, as in CPython `datetime._is_leap`. -/
def isLeap (y : Nat) : Bool :=
  y % 4 == 0 && (y % 100 != 0 || y % 400 == 0)

/-- Length of month `m` (1-based) of year `y`, as in CPython
`datetime._days_in_month` (table plus February leap adjustment). -/
def daysInMonth (y m : Nat) : Nat :=
  if m = 2 ∧ isLeap y = true then 29
  else [0, 31, 28, 31, 30, 31, 30, 31, 31, 30, 31, 30, 31].getD m 0

/-- Days in year `y` before the first of month `m`, as in CPython
`datetime._days_before_month` (cumulative table plus leap adjustment). -/
def daysBeforeMonth (y m : Nat) : Nat :=
  [0, 0, 31, 59, 90, 120, 151, 181, 212, 243, 273, 304, 334].getD m 0 +
    (if 2 < m ∧ isLeap y = true then 1 else 0)

/-- Days before January 1 of year `y`, as in CPython `datetime._days_before_year`. -/
def daysBeforeYear (y : Nat) : Nat :=
  365 * (y - 1) + (y - 1) / 4 - (y - 1) / 100 + (y - 1) / 400

/-- CPython `date(y, m, d).toordinal()`: 0001-01-01 is ordinal 1. -/
def toOrdinal (y m d : Nat) : Nat :=
  daysBeforeYear y + daysBeforeMonth y m + d

/-- CPython `date.weekday()` of the day with the given ordinal:
Monday = 0 … Sunday = 6 (0001-01-01 is a Monday). -/
def pyWeekday (ord : Nat) : Nat :=
  (ord + 6) % 7

/-- CPython `datetime(y, m, d, tzinfo=TZ_INFO)` at midnight, as wall-clock
minutes.  CPython validates `MINYEAR (1) <= y <= MAXYEAR (9999)` and the
month/day ranges, raising `ValueError` otherwise. -/
def datetime_new (y m d : Nat) : Except PyError Int :=
  if 1 ≤ y ∧ y ≤ 9999 ∧ 1 ≤ m ∧ m ≤ 12 ∧ 1 ≤ d ∧ d ≤ daysInMonth y m then
    .ok ((toOrdinal y m d : Int) * 1440)
  else
    .error (.valueError "date value out of range")

/-- Python `datetime.date()` of a wall-clock minute count: its day ordinal. -/
def date_of (t : Int) : Int :=
  t / 1440

/-! ## `SemesterType`, `ParticipantType` -/

/-- Enum `SemesterType(enum.IntEnum)`: `AUTUMN = 1`, `SPRING = 2`. -/
inductive SemesterType where
  | AUTUMN
  | SPRING
  deriving DecidableEq, Repr

/-- The numeric value of a `SemesterType` member. -/
def SemesterType.code : SemesterType → Nat
  | .AUTUMN => 1
  | .SPRING => 2

/-- Enum `ParticipantType(enum.IntEnum)`: `GROUP = 1`, `TEACHER = 2`, `ROOM = 3`. -/
inductive ParticipantType where
  | GROUP
  | TEACHER
  | ROOM
  deriving DecidableEq, Repr

/-- The numeric value of a `ParticipantType` member. -/
def ParticipantType.code : ParticipantType → Nat
  | .GROUP => 1
  | .TEACHER => 2
  | .ROOM => 3

/-- Enum construction `SemesterType(n)` on a raw integer: returns the member with that value or
raises `ValueError` (enum construction failure). -/
def SemesterType.fromInt (n : Int) : Except PyError SemesterType :=
  if n = 1 then .ok .AUTUMN
  else if n = 2 then .ok .SPRING
  else .error (.valueError "is not a valid SemesterType")

/-! ## Academic calendar calculator -/

/-- Method `Schedule.get_start_datetime_of_academic_year`: September 1 of the year at
midnight in the fixed timezone, minus `timedelta(days=weekday())` where
`weekday()` is the ISO index (Monday = 0) of September 1. -/
def get_start_datetime_of_academic_year (academic_year : Nat) : Except PyError Int := do
  let first_september ← datetime_new academic_year 9 1
  pure (first_september - (pyWeekday (toOrdinal academic_year 9 1) : Int) * 1440)

/-- Method `Schedule.get_semester_type` on an explicit reference date `(y, m, d)`:
computes the start datetimes of academic years `y` and `y + 1` (both eagerly,
before any comparison, as the Python code does), then compares the reference
date against their `.date()` values. -/
def get_semester_type (y m d : Nat) : Except PyError SemesterType := do
  let start_datetime_of_academic_year ← get_start_datetime_of_academic_year y
  let start_datetime_of_next_academic_year ← get_start_datetime_of_academic_year (y + 1)
  if (toOrdinal y m d : Int) ≥ date_of start_datetime_of_academic_year then
    pure .AUTUMN
  else if (toOrdinal y m d : Int) < date_of start_datetime_of_next_academic_year then
    pure .SPRING
  else
    .error .semesterTypeNotFoundError

/-! ## Events and the daily slot lookup -/

/-- The frozen `Event` dataclass.  `start_datetime`/`end_datetime` are
wall-clock minute counts in the fixed timezone (see the file header). -/
structure Event where
  title : String
  event_type : String
  participant : String
  location : String
  comment : String
  start_datetime : Int
  end_datetime : Int
  deriving DecidableEq, Repr

/-- Python `list.index(x)`: index of the first element equal to `x`, raising
`ValueError` when `x` does not occur. -/
def pyIndex : List String → String → Except PyError Nat
  | [], _ => .error (.valueError "is not in list")
  | a :: as, x => if a = x then .ok 0 else (pyIndex as x).map (· + 1)

/-- The ten canonical daily slot start times hard-coded in
`Event.get_daily_number`. -/
def DAILY_SLOT_TIMES : List String :=
  ["08:00", "09:35", "11:35", "13:10", "15:10",
   "16:45", "18:20", "19:55", "21:25", "22:55"]

/-- Zero-padded two-digit decimal rendering used by `strftime` fields. -/
def two_digit (n : Nat) : String :=
  if n < 10 then "0" ++ toString n else toString n

/-- Python `datetime.strftime(t, "%H:%M")` of a wall-clock minute count: the
datetime's hour and minute fields, zero padded. -/
def strftime_HM (t : Int) : String :=
  two_digit ((t % 1440) / 60).toNat ++ ":" ++ two_digit ((t % 1440) % 60).toNat

/-- Method `Event.get_daily_number`: 1-based index of the event's `"%H:%M"` start
time within `DAILY_SLOT_TIMES`, via `list.index`. -/
def Event.get_daily_number (ev : Event) : Except PyError Nat := do
  let i ← pyIndex DAILY_SLOT_TIMES (strftime_HM ev.start_datetime)
  pure (i + 1)

/-! ## HTML table rows and the `get_events` parsing loop -/

/-- One `tr` of the schedule table body, as the code reads it through
BeautifulSoup: `classes` is the row's `class` attribute list (`row["class"]`)
and `cells` lists the text of the row's `td` elements in order
(`row.findAll("td")[i].text`). -/
structure Row where
  classes : List String
  cells : List String
  deriving DecidableEq, Repr

/-- Cell access `row_columns[i].text`: raises `IndexError` past the end. -/
def cellText (cells : List String) (i : Nat) : Except PyError String :=
  match cells[i]? with
  | some s => .ok s
  | none => .error .indexError

/-- The seven native weekday names hard-coded in `Schedule.get_events`. -/
def WEEKDAY_NAMES : List String :=
  ["Понедельник", "Вторник", "Среда", "Четверг",
   "Пятница", "Суббота", "Воскресенье"]

/-- Split a character list at every character satisfying `p`, keeping empty
pieces — the semantics of Python `s.split(sep)` for a one-character `sep`
(all separators the schedule code uses are one character).  Written by
structural recursion over the character list so that concrete inputs
evaluate inside the kernel. -/
def splitChars (p : Char → Bool) : List Char → List String
  | [] => [""]
  | c :: cs =>
    match splitChars p cs with
    | [] => if p c then ["", ""] else [String.mk [c]]
    | hd :: tl => if p c then "" :: hd :: tl else String.mk (c :: hd.data) :: tl

/-- Python `s.split(sep)` for a one-character separator. -/
def pySplitSep (sep : Char) (s : String) : List String :=
  splitChars (fun c => c = sep) s.data

/-- Python `int(s)` restricted to unsigned decimal literals — the only shape
the schedule tables carry (the code never passes signs, whitespace padding or
underscores).  Any other string raises `ValueError`, as `int()` does. -/
def pyInt? (s : String) : Option Int :=
  match s.data with
  | [] => none
  | ds =>
    if ds.all (·.isDigit) then
      some ((ds.foldl (fun acc c => acc * 10 + (c.toNat - 48)) 0 : Nat) : Int)
    else none

/-- Python `int(s)` as an `Except`, raising `ValueError` on failure. -/
def pyIntE (s : String) : Except PyError Int :=
  match pyInt? s with
  | some n => .ok n
  | none => .error (.valueError "invalid literal for int()")

/-- Effectful map over a list, stopping at the first error: `mapM` for
`Except`, written recursively so that proofs can induct on the list. -/
def mapExcept {α β : Type} (f : α → Except PyError β) : List α → Except PyError (List β)
  | [] => .ok []
  | a :: as => do
    let b ← f a
    let bs ← mapExcept f as
    pure (b :: bs)

/-- Python `list(map(int, parts))`. -/
def pyIntList (ss : List String) : Except PyError (List Int) :=
  mapExcept pyIntE ss

/-- Python `s.split()` (no separator): split on whitespace runs, dropping
empty pieces. -/
def pySplitWhitespace (s : String) : List String :=
  (splitChars Char.isWhitespace s.data).filter (fun x => x ≠ "")

/-- The time-column parse in `Schedule.get_events`:
`start_time, end_time = (list(map(int, time.split(":"))) for time in text.split("-"))`
followed by `timedelta(hours=t[0], minutes=t[1])` for each side.  Yields the
start and end time-of-day offsets in minutes.  A `"-"`-split arity other than
two raises `ValueError` (tuple unpacking), a side with fewer than two `":"`
fields raises `IndexError`, a non-numeric field raises `ValueError`; extra
`":"` fields beyond the first two are ignored (only `[0]` and `[1]` are
read). -/
def parseTimeRange (text : String) : Except PyError (Int × Int) :=
  match pySplitSep '-' text with
  | [a, b] => do
    let start_time ← pyIntList (pySplitSep ':' a)
    let end_time ← pyIntList (pySplitSep ':' b)
    match start_time, end_time with
    | sh :: sm :: _, eh :: em :: _ => .ok (sh * 60 + sm, eh * 60 + em)
    | _, _ => .error .indexError
  | _ => .error (.valueError "values to unpack")

/-- The `weekday_index` update at the top of the row loop: if the row's class
list contains `"dayheader"`, look the first cell's text up in
`WEEKDAY_NAMES`; otherwise keep the running index. -/
def headerWeekdayIndex (row : Row) (weekday_index : Nat) : Except PyError Nat :=
  if row.classes.contains "dayheader" then do
    let c0 ← cellText row.cells 0
    pyIndex WEEKDAY_NAMES c0
  else
    .ok weekday_index

/-- The `yield Event(...)` body of the week loop in `Schedule.get_events`:
`week_timedelta = timedelta(weeks=week_number - 1, days=weekday_index)` and
the event fields read from cells 3–7 (each cell read per yielded event). -/
def mkEvent (start_of_year : Int) (weekday_index : Nat) (startMin endMin : Int)
    (cells : List String) (week_number : Int) : Except PyError Event := do
  let title ← cellText cells 3
  let event_type ← cellText cells 4
  let participant ← cellText cells 5
  let location ← cellText cells 6
  let comment ← cellText cells 7
  let week_minutes : Int := (week_number - 1) * 10080 + (weekday_index : Int) * 1440
  pure { title := title, event_type := event_type, participant := participant,
         location := location, comment := comment,
         start_datetime := start_of_year + week_minutes + startMin,
         end_datetime := start_of_year + week_minutes + endMin }

/-- The data-row tail of the row loop: parse the time column (cell 1) and the
week-number column (cell 2, whitespace separated), then yield one event per
listed week number. -/
def parseDataRow (start_of_year : Int) (weekday_index : Nat) (cells : List String) :
    Except PyError (List Event) := do
  let timeText ← cellText cells 1
  let se ← parseTimeRange timeText
  let weeksText ← cellText cells 2
  let week_numbers ← pyIntList (pySplitWhitespace weeksText)
  mapExcept (mkEvent start_of_year weekday_index se.1 se.2 cells) week_numbers

/-- One iteration of the row loop in `Schedule.get_events`.  The `dayheader`
and `noinfo` checks are sequential, independent `if`s: a `dayheader` row
first updates `weekday_index`; then `noinfo` (and only `noinfo`) `continue`s,
so a row without `noinfo` — `dayheader` or not — is parsed as a data row.
Returns the updated `weekday_index` and the events yielded from the row. -/
def processRow (start_of_year : Int) (weekday_index : Nat) (row : Row) :
    Except PyError (Nat × List Event) := do
  let widx ← headerWeekdayIndex row weekday_index
  if row.classes.contains "noinfo" then
    pure (widx, [])
  else do
    let evs ← parseDataRow start_of_year widx row.cells
    pure (widx, evs)

/-- The whole row loop, threading `weekday_index` through the rows. -/
def processRows (start_of_year : Int) : Nat → List Row → Except PyError (List Event)
  | _, [] => .ok []
  | weekday_index, row :: rest => do
    let r ← processRow start_of_year weekday_index row
    let tail ← processRows start_of_year r.1 rest
    pure (r.2 ++ tail)

/-- Method `Schedule.get_events` restricted to its pure parsing part: consume the
`tbody tr` rows of the fetched document, starting with `weekday_index = 0`,
and collect every yielded event.  `start_of_year` is the schedule's
precomputed `start_datetime_of_academic_year`. -/
def get_events (start_of_year : Int) (rows : List Row) : Except PyError (List Event) :=
  processRows start_of_year 0 rows

/-! ## Request parameters and semester-type resolution in `get_events` -/

/-- The `fetch_params` dictionary built by `Schedule.get_events`, as an
ordered key/value list.  The `schedule_semestr_id` value embeds the f-string
`f"{str(self.academic_year)[-2:]}{semester_type}"` — `IntEnum` formats as its
numeric value, so the parameter is the two-character year suffix concatenated
with the semester code. -/
def fetch_params (participant_type : ParticipantType) (participant_id : Nat)
    (academic_year : Nat) (semester_type : SemesterType) : List (String × String) :=
  [("WhatShow", toString participant_type.code),
   ("schedule_semestr_id", (toString academic_year).takeRight 2 ++ toString semester_type.code),
   ("weeks", "0")] ++
  (match participant_type with
   | .GROUP => [("student_group_id", toString participant_id)]
   | .TEACHER => [("teacher", toString participant_id)]
   | .ROOM => [])

/-- The semester-type resolution at the top of `Schedule.get_events`:
`SemesterType(semester_type or self.get_semester_type())`.  The argument is
`None` or a raw integer; `current_classification` stands for the value
`self.get_semester_type()` returns for the current date (passing an existing
member through `SemesterType(...)` yields it back unchanged).  Because `or`
tests truthiness, both `None` and `0` fall back to the computed
classification; any other integer goes through enum construction. -/
def resolve_semester_type (semester_type : Option Int)
    (current_classification : SemesterType) : Except PyError SemesterType :=
  match semester_type with
  | none => .ok current_classification
  | some v => if v = 0 then .ok current_classification else SemesterType.fromInt v

/-! ## Structural lemmas about the `Except` plumbing -/

theorem except_bind_ok {α β : Type} {x : Except PyError α} {f : α → Except PyError β} {b : β} :
    x >>= f = .ok b ↔ ∃ a, x = .ok a ∧ f a = .ok b := by
  cases x with
  | error e => simp [Bind.bind, Except.bind]
  | ok a => simp [Bind.bind, Except.bind]

theorem except_pure_ok {α : Type} {a b : α} :
    (pure a : Except PyError α) = .ok b ↔ a = b := by
  simp [pure, Except.pure]

theorem pyIndex_ok_get {l : List String} {x : String} :
    ∀ {k : Nat}, pyIndex l x = .ok k → l[k]? = some x := by
  induction l with
  | nil => intro k h; simp [pyIndex] at h
  | cons a as ih =>
    intro k h
    by_cases hax : a = x
    · simp [pyIndex, hax] at h
      subst h
      simp [hax]
    · simp only [pyIndex, if_neg hax] at h
      cases hj : pyIndex as x with
      | error e => rw [hj] at h; simp [Except.map] at h
      | ok j =>
        rw [hj] at h
        simp [Except.map] at h
        subst h
        simpa using ih hj

theorem pyIndex_mem_ok {l : List String} {x : String} (h : x ∈ l) :
    ∃ k, pyIndex l x = .ok k := by
  induction l with
  | nil => cases h
  | cons a as ih =>
    by_cases hax : a = x
    · exact ⟨0, by simp [pyIndex, hax]⟩
    · have hmem : x ∈ as := by
        cases h with
        | head => exact absurd rfl hax
        | tail _ h' => exact h'
      obtain ⟨k, hk⟩ := ih hmem
      exact ⟨k + 1, by simp [pyIndex, if_neg hax, hk, Except.map]⟩

theorem pyIndex_not_mem {l : List String} {x : String} (h : x ∉ l) :
    pyIndex l x = .error (.valueError "is not in list") := by
  induction l with
  | nil => rfl
  | cons a as ih =>
    have hax : ¬a = x := fun hc => h (hc ▸ List.mem_cons_self a as)
    have has : x ∉ as := fun hc => h (List.mem_cons_of_mem a hc)
    simp [pyIndex, if_neg hax, ih has, Except.map]

theorem mapExcept_ok_length {α β : Type} {f : α → Except PyError β} :
    ∀ {l : List α} {bs : List β}, mapExcept f l = .ok bs → bs.length = l.length := by
  intro l
  induction l with
  | nil =>
    intro bs h
    simp only [mapExcept] at h
    cases h
    rfl
  | cons a as ih =>
    intro bs h
    simp only [mapExcept, except_bind_ok, except_pure_ok] at h
    obtain ⟨b, _, bs', hbs', rfl⟩ := h
    simp [ih hbs']

theorem mapExcept_ok_mem {α β : Type} {f : α → Except PyError β} :
    ∀ {l : List α} {bs : List β}, mapExcept f l = .ok bs →
      ∀ b ∈ bs, ∃ a ∈ l, f a = .ok b := by
  intro l
  induction l with
  | nil =>
    intro bs h b hb
    simp only [mapExcept] at h
    cases h
    cases hb
  | cons a as ih =>
    intro bs h b hb
    simp only [mapExcept, except_bind_ok, except_pure_ok] at h
    obtain ⟨b0, hb0, bs', hbs', rfl⟩ := h
    cases hb with
    | head => exact ⟨a, List.mem_cons_self a as, hb0⟩
    | tail _ hb' =>
      obtain ⟨a', ha', hfa'⟩ := ih hbs' b hb'
      exact ⟨a', List.mem_cons_of_mem a ha', hfa'⟩

theorem mapExcept_ok_get {α β : Type} {f : α → Except PyError β} :
    ∀ {l : List α} {bs : List β}, mapExcept f l = .ok bs →
      ∀ (i : Nat) (a : α), l[i]? = some a → ∃ b, bs[i]? = some b ∧ f a = .ok b := by
  intro l
  induction l with
  | nil => intro bs h i a ha; simp at ha
  | cons a0 as ih =>
    intro bs h i a ha
    simp only [mapExcept, except_bind_ok, except_pure_ok] at h
    obtain ⟨b0, hb0, bs', hbs', rfl⟩ := h
    cases i with
    | zero =>
      simp at ha
      subst ha
      exact ⟨b0, by simp, hb0⟩
    | succ j =>
      simp at ha
      obtain ⟨b, hb, hfb⟩ := ih hbs' j a ha
      exact ⟨b, by simpa using hb, hfb⟩

theorem mkEvent_ok_inv {S : Int} {widx : Nat} {s e : Int} {cells : List String}
    {w : Int} {ev : Event} (h : mkEvent S widx s e cells w = .ok ev) :
    cellText cells 3 = .ok ev.title ∧ cellText cells 4 = .ok ev.event_type ∧
    cellText cells 5 = .ok ev.participant ∧ cellText cells 6 = .ok ev.location ∧
    cellText cells 7 = .ok ev.comment ∧
    ev.start_datetime = S + ((w - 1) * 10080 + (widx : Int) * 1440) + s ∧
    ev.end_datetime = S + ((w - 1) * 10080 + (widx : Int) * 1440) + e := by
  simp only [mkEvent, except_bind_ok, except_pure_ok] at h
  obtain ⟨t, ht, ty, hty, p, hp, lo, hlo, c, hc, hev⟩ := h
  subst hev
  exact ⟨ht, hty, hp, hlo, hc, rfl, rfl⟩

theorem parseDataRow_ok_inv {S : Int} {widx : Nat} {cells : List String}
    {evs : List Event} (h : parseDataRow S widx cells = .ok evs) :
    ∃ t se wtext ws, cellText cells 1 = .ok t ∧ parseTimeRange t = .ok se ∧
      cellText cells 2 = .ok wtext ∧ pyIntList (pySplitWhitespace wtext) = .ok ws ∧
      mapExcept (mkEvent S widx se.1 se.2 cells) ws = .ok evs := by
  simp only [parseDataRow, except_bind_ok] at h
  obtain ⟨t, ht, se, hse, wtext, hwtext, ws, hws, hmap⟩ := h
  exact ⟨t, se, wtext, ws, ht, hse, hwtext, hws, hmap⟩

theorem processRow_ok_inv {S : Int} {widx : Nat} {row : Row} {widx' : Nat}
    {evs : List Event} (h : processRow S widx row = .ok (widx', evs)) :
    headerWeekdayIndex row widx = .ok widx' ∧
    (if row.classes.contains "noinfo" then evs = []
     else parseDataRow S widx' row.cells = .ok evs) := by
  simp only [processRow, except_bind_ok] at h
  obtain ⟨w0, hw0, hrest⟩ := h
  by_cases hn : row.classes.contains "noinfo"
  · rw [if_pos hn, except_pure_ok] at hrest
    cases hrest
    exact ⟨hw0, by rw [if_pos hn]⟩
  · rw [if_neg hn] at hrest
    simp only [except_bind_ok, except_pure_ok] at hrest
    obtain ⟨evs0, hevs0, hpair⟩ := hrest
    cases hpair
    exact ⟨hw0, by rw [if_neg hn]; exact hevs0⟩

theorem processRows_events {S : Int} :
    ∀ {rows : List Row} {widx : Nat} {evs : List Event},
      processRows S widx rows = .ok evs →
      ∀ ev ∈ evs, ∃ row ∈ rows, ∃ w w' rowEvs,
        processRow S w row = .ok (w', rowEvs) ∧ ev ∈ rowEvs := by
  intro rows
  induction rows with
  | nil =>
    intro widx evs h ev hev
    simp only [processRows] at h
    cases h
    cases hev
  | cons r rest ih =>
    intro widx evs h ev hev
    simp only [processRows, except_bind_ok, except_pure_ok] at h
    obtain ⟨⟨w', revs⟩, hr, tail, htail, rfl⟩ := h
    rcases List.mem_append.mp hev with hmem | hmem
    · exact ⟨r, List.mem_cons_self r rest, widx, w', revs, hr, hmem⟩
    · obtain ⟨row, hrow, w0, w0', rowEvs, hrow', hmem'⟩ := ih htail ev hmem
      exact ⟨row, List.mem_cons_of_mem r hrow, w0, w0', rowEvs, hrow', hmem'⟩

theorem except_ok_bind {α β : Type} {a : α} {f : α → Except PyError β} :
    (Except.ok a >>= f) = f a := rfl

/-! ## Calendar facts -/

theorem daysBeforeMonth_nine (y : Nat) :
    daysBeforeMonth y 9 = 243 + (if isLeap y = true then 1 else 0) := by
  by_cases hL : isLeap y = true <;> simp [daysBeforeMonth, hL]

theorem daysBeforeMonth_eight (y : Nat) :
    daysBeforeMonth y 8 = 212 + (if isLeap y = true then 1 else 0) := by
  by_cases hL : isLeap y = true <;> simp [daysBeforeMonth, hL]

theorem daysInMonth_nine (y : Nat) : daysInMonth y 9 = 30 := by
  have h : ¬(9 = 2 ∧ isLeap y = true) := fun hc => by omega
  unfold daysInMonth
  rw [if_neg h]
  rfl

theorem datetime_new_sep1 {y : Nat} (h1 : 1 ≤ y) (h2 : y ≤ 9999) :
    datetime_new y 9 1 = .ok ((toOrdinal y 9 1 : Int) * 1440) := by
  unfold datetime_new
  rw [if_pos]
  exact ⟨h1, h2, by norm_num, by norm_num, by norm_num, by rw [daysInMonth_nine]; norm_num⟩

theorem start_of_year_ok {y : Nat} (h1 : 1 ≤ y) (h2 : y ≤ 9999) :
    get_start_datetime_of_academic_year y =
      .ok (((toOrdinal y 9 1 - pyWeekday (toOrdinal y 9 1) : Nat) : Int) * 1440) := by
  have hb := daysBeforeMonth_nine y
  have hw : pyWeekday (toOrdinal y 9 1) ≤ toOrdinal y 9 1 := by
    unfold pyWeekday toOrdinal
    omega
  unfold get_start_datetime_of_academic_year
  rw [datetime_new_sep1 h1 h2, except_ok_bind, except_pure_ok, Nat.cast_sub hw]
  ring

/-! ## Claim C5: the academic-year start -/

/-- C5 (amended): for every year in `datetime`'s supported range
`1 ≤ y ≤ 9999`, `get_start_datetime_of_academic_year y` succeeds and returns
local midnight (`d * 1440` minutes) of the day `d` obtained by subtracting
September 1's ISO weekday index from September 1; that day is a Monday
(`pyWeekday d = 0`), is on or before September 1 of `y`, and is strictly
after August 25 of `y`.  (Outside the supported year range the underlying
`datetime` constructor raises `ValueError`, so the original claim's "raises
no error for any integer year" does not hold; see the counterexample.) -/
theorem C5_start_of_academic_year (y : Nat) (h1 : 1 ≤ y) (h2 : y ≤ 9999) :
    ∃ d : Nat,
      d = toOrdinal y 9 1 - pyWeekday (toOrdinal y 9 1) ∧
      get_start_datetime_of_academic_year y = .ok ((d : Int) * 1440) ∧
      pyWeekday d = 0 ∧
      d ≤ toOrdinal y 9 1 ∧
      toOrdinal y 8 25 < d := by
  have h9 := daysBeforeMonth_nine y
  have hord : 7 ≤ toOrdinal y 9 1 := by
    unfold toOrdinal
    by_cases hL : isLeap y = true <;> simp [hL] at h9 <;> omega
  refine ⟨toOrdinal y 9 1 - pyWeekday (toOrdinal y 9 1), rfl, start_of_year_ok h1 h2,
    ?_, ?_, ?_⟩
  · unfold pyWeekday
    omega
  · omega
  · have h8 := daysBeforeMonth_eight y
    have h9' := daysBeforeMonth_nine y
    unfold toOrdinal pyWeekday
    by_cases hL : isLeap y = true <;> simp [hL] at h8 h9' <;> omega

/-- Witness for C5 at the concrete year 2023. -/
theorem C5_start_of_academic_year_witness :
    ∃ d : Nat,
      d = toOrdinal 2023 9 1 - pyWeekday (toOrdinal 2023 9 1) ∧
      get_start_datetime_of_academic_year 2023 = .ok ((d : Int) * 1440) ∧
      pyWeekday d = 0 ∧
      d ≤ toOrdinal 2023 9 1 ∧
      toOrdinal 2023 8 25 < d :=
  C5_start_of_academic_year 2023 (by norm_num) (by norm_num)

/-- Counterexample to C5 as stated: the claim says the function raises no
error for any integer year, but for year 0 (and year 10000) the `datetime`
construction of September 1 raises `ValueError`, which propagates. -/
theorem C5_start_of_academic_year_cex :
    get_start_datetime_of_academic_year 0 = .error (.valueError "date value out of range") ∧
    get_start_datetime_of_academic_year 10000 = .error (.valueError "date value out of range") := by
  exact ⟨by decide, by decide⟩

/-! ## Claim C4: semester classification -/

/-- C4 (amended): whenever the start datetimes of academic years `y` and
`y + 1` both construct (in particular for every valid reference date with
`y ≤ 9998`), `get_semester_type` returns AUTUMN if the reference date is on
or after the start date of academic year `y`, else SPRING if it is before
the start date of academic year `y + 1`, and otherwise raises the dedicated
`SemesterTypeNotFoundError`, which is a distinct error from a generic
`ValueError`; concretely 2023-08-28 classifies as AUTUMN and 2024-08-25 as
SPRING.  (For reference dates in year 9999 the eager construction of the
next academic year's start raises a generic `ValueError` instead, so the
claim's universal quantification over all reference dates fails; see the
counterexample.) -/
theorem C4_semester_type :
    (∀ (y m d : Nat) (s0 s1 : Int), 1 ≤ m → m ≤ 12 → 1 ≤ d → d ≤ daysInMonth y m →
      get_start_datetime_of_academic_year y = .ok s0 →
      get_start_datetime_of_academic_year (y + 1) = .ok s1 →
      get_semester_type y m d =
        (if (toOrdinal y m d : Int) ≥ date_of s0 then .ok .AUTUMN
         else if (toOrdinal y m d : Int) < date_of s1 then .ok .SPRING
         else .error .semesterTypeNotFoundError)) ∧
    (∀ msg, PyError.semesterTypeNotFoundError ≠ .valueError msg) ∧
    get_semester_type 2023 8 28 = .ok .AUTUMN ∧
    get_semester_type 2024 8 25 = .ok .SPRING := by
  refine ⟨?_, ?_, by decide, by decide⟩
  · intro y m d s0 s1 _ _ _ _ hs0 hs1
    unfold get_semester_type
    rw [hs0, except_ok_bind, hs1, except_ok_bind]
    rfl
  · intro msg h
    cases h

/-- Witness for C4 at the reference date 2023-08-28. -/
theorem C4_semester_type_witness :
    get_semester_type 2023 8 28 =
      (if (toOrdinal 2023 8 28 : Int) ≥ date_of ((toOrdinal 2023 8 28 : Int) * 1440) then
        .ok .AUTUMN
       else if (toOrdinal 2023 8 28 : Int) < date_of ((toOrdinal 2024 8 26 : Int) * 1440) then
        .ok .SPRING
       else .error .semesterTypeNotFoundError) :=
  C4_semester_type.1 2023 8 28 _ _ (by norm_num) (by norm_num) (by norm_num) (by decide)
    (by decide) (by decide)

/-- Counterexample to C4 as stated: 9999-09-30 is a valid reference date on
or after the start date of academic year 9999 (2nd conjunct), so the claim
demands AUTUMN, but the code first computes the start of academic year 10000
and that `datetime` construction raises a generic `ValueError` (3rd
conjunct) — neither AUTUMN nor the dedicated error. -/
theorem C4_semester_type_cex :
    get_start_datetime_of_academic_year 9999 = .ok ((toOrdinal 9999 8 30 : Int) * 1440) ∧
    (toOrdinal 9999 9 30 : Int) ≥ date_of ((toOrdinal 9999 8 30 : Int) * 1440) ∧
    get_semester_type 9999 9 30 = .error (.valueError "date value out of range") := by
  exact ⟨by decide, by decide, by decide⟩

/-! ## Claim C1: header rows versus data rows -/

/-- The first row of the repository's own test table: class `dayheader`
(without `noinfo`) and a full set of data cells. -/
def mondayHeaderDataRow : Row :=
  ⟨["dayheader"],
   ["Понедельник", "08:00-09:20", "1", "name0", "event_type0", "fio0", "location0", "comment0"]⟩

/-- C1 (amended): a row whose class list contains `dayheader` and not
`noinfo` updates `weekday_index` from its first cell and is ALSO parsed as a
data row — its week column is parsed and one event is emitted per listed
week number.  Only `noinfo` prevents data-row parsing: the two
class-membership checks are sequential, not mutually exclusive. -/
theorem C1_dayheader_also_data (S : Int) (widx : Nat) (row : Row) (widx' : Nat)
    (evs : List Event)
    (hd : row.classes.contains "dayheader" = true)
    (hn : row.classes.contains "noinfo" = false)
    (hp : processRow S widx row = .ok (widx', evs)) :
    (∃ c0, cellText row.cells 0 = .ok c0 ∧ pyIndex WEEKDAY_NAMES c0 = .ok widx') ∧
    (∃ wtext ws, cellText row.cells 2 = .ok wtext ∧
      pyIntList (pySplitWhitespace wtext) = .ok ws ∧ evs.length = ws.length) := by
  obtain ⟨hw, hrest⟩ := processRow_ok_inv hp
  have hn' : ¬row.classes.contains "noinfo" = true := by
    rw [hn]
    exact Bool.false_ne_true
  rw [if_neg hn'] at hrest
  unfold headerWeekdayIndex at hw
  rw [if_pos hd] at hw
  simp only [except_bind_ok] at hw
  obtain ⟨c0, hc0, hidx⟩ := hw
  obtain ⟨t, se, wtext, ws, _, _, hwt, hws, hmap⟩ := parseDataRow_ok_inv hrest
  exact ⟨⟨c0, hc0, hidx⟩, ⟨wtext, ws, hwt, hws, mapExcept_ok_length hmap⟩⟩

/-- Witness for C1 on the repository test's `dayheader` row. -/
theorem C1_dayheader_also_data_witness :
    (∃ c0, cellText mondayHeaderDataRow.cells 0 = .ok c0 ∧
      pyIndex WEEKDAY_NAMES c0 = .ok 0) ∧
    (∃ wtext ws, cellText mondayHeaderDataRow.cells 2 = .ok wtext ∧
      pyIntList (pySplitWhitespace wtext) = .ok ws ∧
      ([{ title := "name0", event_type := "event_type0", participant := "fio0",
          location := "location0", comment := "comment0",
          start_datetime := (toOrdinal 2023 8 28 : Int) * 1440 + 480,
          end_datetime := (toOrdinal 2023 8 28 : Int) * 1440 + 560 }] : List Event).length =
        ws.length) :=
  C1_dayheader_also_data ((toOrdinal 2023 8 28 : Int) * 1440) 0 mondayHeaderDataRow 0 _
    (by decide) (by decide) (by decide)

/-- Counterexample to C1 as stated: the claim says a `dayheader` row without
`noinfo` emits no Event, but on the repository test's own header row (first
cell `Понедельник`, time `08:00-09:20`, week `1`, academic year 2023) the
parser emits exactly the event the repository test asserts. -/
theorem C1_dayheader_also_data_cex :
    get_events ((toOrdinal 2023 8 28 : Int) * 1440) [mondayHeaderDataRow] =
      .ok [{ title := "name0", event_type := "event_type0", participant := "fio0",
             location := "location0", comment := "comment0",
             start_datetime := (toOrdinal 2023 8 28 : Int) * 1440 + 480,
             end_datetime := (toOrdinal 2023 8 28 : Int) * 1440 + 560 }] ∧
    get_events ((toOrdinal 2023 8 28 : Int) * 1440) [mondayHeaderDataRow] ≠ .ok [] := by
  exact ⟨by decide, by decide⟩

/-! ## Claim C2: the Friday week-52 example -/

/-- A `Пятница` header row (marked `noinfo`, as in the repository test's
header rows, so that it only updates the weekday index). -/
def fridayHeaderRow : Row := ⟨["noinfo", "dayheader"], ["Пятница"]⟩

/-- The data row of the claim: time `22:55-23:00`, week `52`. -/
def fridayDataRow : Row :=
  ⟨["extra"], ["", "22:55-23:00", "52", "name1", "event_type1", "fio1", "location1", "comment1"]⟩

/-- C2 (amended): for academic year 2023 (start 2023-08-28), a data row under
a `Пятница` (Friday) dayheader with time column `22:55-23:00` and week
column `52` yields one Event whose start is 2024-08-**23**T22:55 and end
2024-08-23T23:00 wall-clock in the fixed timezone.  (2024-08-24, the value
the original claim states, is what a `Суббота` (Saturday) header yields — it
is the Saturday-row case that the repository's test exercises.) -/
theorem C2_friday_week52 :
    get_start_datetime_of_academic_year 2023 = .ok ((toOrdinal 2023 8 28 : Int) * 1440) ∧
    get_events ((toOrdinal 2023 8 28 : Int) * 1440) [fridayHeaderRow, fridayDataRow] =
      .ok [{ title := "name1", event_type := "event_type1", participant := "fio1",
             location := "location1", comment := "comment1",
             start_datetime := (toOrdinal 2024 8 23 : Int) * 1440 + (22 * 60 + 55),
             end_datetime := (toOrdinal 2024 8 23 : Int) * 1440 + 23 * 60 }] := by
  exact ⟨by decide, by decide⟩

/-- Counterexample to C2 as stated: the single event produced for the Friday
row starts at 2024-08-23T22:55, which differs from the claimed
2024-08-24T22:55. -/
theorem C2_friday_week52_cex :
    (get_events ((toOrdinal 2023 8 28 : Int) * 1440) [fridayHeaderRow, fridayDataRow]).map
        (List.map Event.start_datetime) =
      .ok [(toOrdinal 2024 8 23 : Int) * 1440 + (22 * 60 + 55)] ∧
    (toOrdinal 2024 8 23 : Int) * 1440 + (22 * 60 + 55) ≠
      (toOrdinal 2024 8 24 : Int) * 1440 + (22 * 60 + 55) := by
  exact ⟨by decide, by decide⟩

/-! ## Claim C3: start before end -/

/-- C3 (amended): every Event produced by `get_events` from a table whose
data rows all carry a time range with start offset strictly below end offset
satisfies `start_datetime < end_datetime`.  (The parser does not validate
the time column, so a row such as `08:00-08:00` produces an event violating
the strict inequality; see the counterexample.) -/
theorem C3_start_lt_end (S : Int) (rows : List Row) (evs : List Event)
    (hok : get_events S rows = .ok evs)
    (htime : ∀ row ∈ rows, ∀ (t : String) (s e : Int), cellText row.cells 1 = .ok t →
      parseTimeRange t = .ok (s, e) → s < e) :
    ∀ ev ∈ evs, ev.start_datetime < ev.end_datetime := by
  intro ev hev
  obtain ⟨row, hrow, w, w', revs, hpr, hevr⟩ := processRows_events hok ev hev
  obtain ⟨hw, hrest⟩ := processRow_ok_inv hpr
  by_cases hn : row.classes.contains "noinfo"
  · rw [if_pos hn] at hrest
    subst hrest
    cases hevr
  · rw [if_neg hn] at hrest
    obtain ⟨t, se, wtext, ws, ht, hse, hwt, hws, hmap⟩ := parseDataRow_ok_inv hrest
    obtain ⟨wn, hwn, hmk⟩ := mapExcept_ok_mem hmap ev hevr
    obtain ⟨_, _, _, _, _, hstart, hend⟩ := mkEvent_ok_inv hmk
    have hlt := htime row hrow t se.1 se.2 ht (by rw [hse])
    omega

/-- The data row used in the C3 witness. -/
def c3Row : Row := ⟨["lesson"], ["", "08:00-09:20", "1", "t", "ty", "p", "l", "c"]⟩

/-- The event `c3Row` produces (year start taken as 0 for readability). -/
def c3Event : Event := ⟨"t", "ty", "p", "l", "c", 480, 560⟩

/-- Witness for C3 on a concrete one-row table. -/
theorem C3_start_lt_end_witness : c3Event.start_datetime < c3Event.end_datetime :=
  C3_start_lt_end 0 [c3Row] [c3Event] (by decide)
    (by
      intro row hrow t s e ht hse
      rw [List.mem_singleton] at hrow
      subst hrow
      rw [show cellText c3Row.cells 1 = Except.ok "08:00-09:20" from by decide] at ht
      injection ht with ht
      subst ht
      rw [show parseTimeRange "08:00-09:20" = Except.ok ((480 : Int), (560 : Int)) from
        by decide] at hse
      injection hse with hse
      have h1 : (480 : Int) = s := congrArg Prod.fst hse
      have h2 : (560 : Int) = e := congrArg Prod.snd hse
      omega)
    c3Event (List.mem_singleton_self c3Event)

/-- Counterexample to C3 as stated: a data row with time column
`08:00-08:00` yields an event with `start_datetime = end_datetime`, so the
unconditional invariant `start_datetime < end_datetime` fails. -/
theorem C3_start_lt_end_cex :
    get_events ((toOrdinal 2023 8 28 : Int) * 1440)
        [⟨["lesson"], ["", "08:00-08:00", "1", "t", "ty", "p", "l", "c"]⟩] =
      .ok [{ title := "t", event_type := "ty", participant := "p", location := "l",
             comment := "c",
             start_datetime := (toOrdinal 2023 8 28 : Int) * 1440 + 480,
             end_datetime := (toOrdinal 2023 8 28 : Int) * 1440 + 480 }] ∧
    ¬((toOrdinal 2023 8 28 : Int) * 1440 + 480 < (toOrdinal 2023 8 28 : Int) * 1440 + 480) := by
  exact ⟨by decide, by decide⟩

/-! ## Claim C6: the schedule semester id -/

/-- C6 (confirmed): the `schedule_semestr_id` query parameter is the string
concatenation of the last two characters of the decimal academic year with
the semester-type numeric code, for every participant type and year; for
academic year 2023 and AUTUMN it is exactly `"231"` (a string, not the
arithmetic combination 24). -/
theorem C6_schedule_semestr_id :
    (∀ (pt : ParticipantType) (pid y : Nat) (st : SemesterType),
      (fetch_params pt pid y st).lookup "schedule_semestr_id" =
        some ((toString y).takeRight 2 ++ toString st.code)) ∧
    (fetch_params .GROUP 2575 2023 .AUTUMN).lookup "schedule_semestr_id" = some "231" := by
  constructor
  · intro pt pid y st
    cases pt <;> rfl
  · rfl

/-! ## Claim C7: multi-week fan-out -/

/-- C7 (confirmed): a data row (no `noinfo` class) processed successfully
yields exactly one Event per listed week number: the event list is as long
as the parsed week list, all events carry identical title, type,
participant, location and comment, and the start (and end) timestamps of the
events for listed weeks `wi` and `wj` differ by exactly
`10080 * (wi - wj)` minutes — an exact multiple of 7 days. -/
theorem C7_multi_week_row (S : Int) (widx : Nat) (row : Row) (widx' : Nat)
    (evs : List Event) (wtext : String) (ws : List Int)
    (hn : row.classes.contains "noinfo" = false)
    (hp : processRow S widx row = .ok (widx', evs))
    (hwt : cellText row.cells 2 = .ok wtext)
    (hws : pyIntList (pySplitWhitespace wtext) = .ok ws) :
    evs.length = ws.length ∧
    (∀ e1 ∈ evs, ∀ e2 ∈ evs,
      e1.title = e2.title ∧ e1.event_type = e2.event_type ∧
      e1.participant = e2.participant ∧ e1.location = e2.location ∧
      e1.comment = e2.comment) ∧
    (∀ (i j : Nat) (wi wj : Int) (ei ej : Event),
      ws[i]? = some wi → ws[j]? = some wj → evs[i]? = some ei → evs[j]? = some ej →
      ei.start_datetime - ej.start_datetime = 10080 * (wi - wj) ∧
      ei.end_datetime - ej.end_datetime = 10080 * (wi - wj)) := by
  obtain ⟨hw, hrest⟩ := processRow_ok_inv hp
  have hn' : ¬row.classes.contains "noinfo" = true := by
    rw [hn]
    exact Bool.false_ne_true
  rw [if_neg hn'] at hrest
  obtain ⟨t, se, wtext0, ws0, ht, hse, hwt0, hws0, hmap⟩ := parseDataRow_ok_inv hrest
  rw [hwt] at hwt0
  injection hwt0 with hwt0
  subst hwt0
  rw [hws] at hws0
  injection hws0 with hws0
  subst hws0
  refine ⟨mapExcept_ok_length hmap, ?_, ?_⟩
  · intro e1 he1 e2 he2
    obtain ⟨w1, _, hmk1⟩ := mapExcept_ok_mem hmap e1 he1
    obtain ⟨w2, _, hmk2⟩ := mapExcept_ok_mem hmap e2 he2
    obtain ⟨h13, h14, h15, h16, h17, _, _⟩ := mkEvent_ok_inv hmk1
    obtain ⟨h23, h24, h25, h26, h27, _, _⟩ := mkEvent_ok_inv hmk2
    rw [h13] at h23
    rw [h14] at h24
    rw [h15] at h25
    rw [h16] at h26
    rw [h17] at h27
    injection h23 with h23
    injection h24 with h24
    injection h25 with h25
    injection h26 with h26
    injection h27 with h27
    exact ⟨h23, h24, h25, h26, h27⟩
  · intro i j wi wj ei ej hwi hwj hei hej
    obtain ⟨bi, hbi, hmki⟩ := mapExcept_ok_get hmap i wi hwi
    obtain ⟨bj, hbj, hmkj⟩ := mapExcept_ok_get hmap j wj hwj
    rw [hei] at hbi
    rw [hej] at hbj
    injection hbi with hbi
    injection hbj with hbj
    subst hbi
    subst hbj
    obtain ⟨_, _, _, _, _, hsi, hni⟩ := mkEvent_ok_inv hmki
    obtain ⟨_, _, _, _, _, hsj, hnj⟩ := mkEvent_ok_inv hmkj
    constructor
    · rw [hsi, hsj]
      ring
    · rw [hni, hnj]
      ring

/-- The three-week data row used in the C7 witness (weeks `1 3 5`). -/
def threeWeekRow : Row :=
  ⟨["lesson"], ["", "08:00-09:35", "1 3 5", "t", "ty", "p", "l", "c"]⟩

/-- The three events `threeWeekRow` produces with year start 0 and weekday
index 0 (weeks 1, 3, 5 at 08:00–09:35). -/
def threeWeekEvents : List Event :=
  [⟨"t", "ty", "p", "l", "c", 480, 575⟩,
   ⟨"t", "ty", "p", "l", "c", 20640, 20735⟩,
   ⟨"t", "ty", "p", "l", "c", 40800, 40895⟩]

/-- Witness for C7 on the concrete three-week row. -/
theorem C7_multi_week_row_witness :
    threeWeekEvents.length = ([1, 3, 5] : List Int).length ∧
    (⟨"t", "ty", "p", "l", "c", 20640, 20735⟩ : Event).start_datetime -
        (⟨"t", "ty", "p", "l", "c", 480, 575⟩ : Event).start_datetime = 10080 * (3 - 1) :=
  ⟨(C7_multi_week_row 0 0 threeWeekRow 0 threeWeekEvents "1 3 5" [1, 3, 5]
      (by decide) (by decide) (by decide) (by decide)).1,
   ((C7_multi_week_row 0 0 threeWeekRow 0 threeWeekEvents "1 3 5" [1, 3, 5]
      (by decide) (by decide) (by decide) (by decide)).2.2 1 0 3 1
      (⟨"t", "ty", "p", "l", "c", 20640, 20735⟩ : Event)
      (⟨"t", "ty", "p", "l", "c", 480, 575⟩ : Event) rfl rfl rfl rfl).1⟩

/-! ## Claim C8: noinfo rows -/

/-- C8 (confirmed): a row whose class list contains `noinfo` yields no
events, whatever its cells hold; and if the same row also carries
`dayheader`, the weekday-index update from its first cell still takes
effect — the returned index is the looked-up one and it is the index passed
to the continuation of the row loop for all subsequent rows. -/
theorem C8_noinfo_row (S : Int) (widx : Nat) (row : Row) (widx' : Nat) (evs : List Event)
    (hn : row.classes.contains "noinfo" = true)
    (hp : processRow S widx row = .ok (widx', evs)) :
    evs = [] ∧
    (row.classes.contains "dayheader" = true →
      ∃ c0, cellText row.cells 0 = .ok c0 ∧ pyIndex WEEKDAY_NAMES c0 = .ok widx') ∧
    (∀ rest, processRows S widx (row :: rest) = processRows S widx' rest) := by
  obtain ⟨hw, hrest⟩ := processRow_ok_inv hp
  rw [if_pos hn] at hrest
  subst hrest
  refine ⟨rfl, ?_, ?_⟩
  · intro hd
    unfold headerWeekdayIndex at hw
    rw [if_pos hd] at hw
    simp only [except_bind_ok] at hw
    obtain ⟨c0, hc0, hidx⟩ := hw
    exact ⟨c0, hc0, hidx⟩
  · intro rest
    simp only [processRows]
    rw [hp, except_ok_bind]
    cases htail : processRows S widx' rest with
    | error e => simp [Bind.bind, Except.bind]
    | ok tail => simp [Bind.bind, Except.bind, pure, Except.pure]

/-- The `noinfo` + `dayheader` row used in the C8 witness (the repository
test's Tuesday header). -/
def tuesdayNoinfoRow : Row := ⟨["noinfo", "dayheader"], ["Вторник"]⟩

/-- Witness for C8: the Tuesday `noinfo dayheader` row yields no events and
still moves the weekday index to 1. -/
theorem C8_noinfo_row_witness :
    ∃ c0, cellText tuesdayNoinfoRow.cells 0 = .ok c0 ∧ pyIndex WEEKDAY_NAMES c0 = .ok 1 :=
  (C8_noinfo_row 0 0 tuesdayNoinfoRow 1 [] (by decide) (by decide)).2.1 (by decide)

/-! ## Claim C9: the daily slot number -/

/-- C9 (confirmed): `Event.get_daily_number` fails with the value-not-found
`ValueError` exactly when the event's `"%H:%M"` start time is absent from
the ten-slot table; on success it returns the 1-based position of that time
in the table; and an event starting at 08:00 (for example on 2023-08-28) has
daily number 1. -/
theorem C9_daily_number :
    (∀ ev : Event, ev.get_daily_number = .error (.valueError "is not in list") ↔
      strftime_HM ev.start_datetime ∉ DAILY_SLOT_TIMES) ∧
    (∀ (ev : Event) (k : Nat), ev.get_daily_number = .ok k →
      1 ≤ k ∧ DAILY_SLOT_TIMES[k - 1]? = some (strftime_HM ev.start_datetime)) ∧
    (∀ ev : Event, ev.start_datetime = (toOrdinal 2023 8 28 : Int) * 1440 + 480 →
      ev.get_daily_number = .ok 1) := by
  refine ⟨?_, ?_, ?_⟩
  · intro ev
    constructor
    · intro herr hmem
      obtain ⟨k, hk⟩ := pyIndex_mem_ok hmem
      unfold Event.get_daily_number at herr
      rw [hk, except_ok_bind] at herr
      simp [pure, Except.pure] at herr
    · intro hmem
      unfold Event.get_daily_number
      rw [pyIndex_not_mem hmem]
      rfl
  · intro ev k hok
    unfold Event.get_daily_number at hok
    cases hk : pyIndex DAILY_SLOT_TIMES (strftime_HM ev.start_datetime) with
    | error e =>
      rw [hk] at hok
      simp [Bind.bind, Except.bind] at hok
    | ok i =>
      rw [hk, except_ok_bind] at hok
      rw [except_pure_ok] at hok
      subst hok
      have hget := pyIndex_ok_get hk
      exact ⟨by omega, by simpa using hget⟩
  · intro ev h
    unfold Event.get_daily_number
    rw [h]
    decide

/-- Witness for C9: an event starting 2023-08-28 T 08:00 has daily number 1. -/
theorem C9_daily_number_witness :
    Event.get_daily_number
      ⟨"name0", "event_type0", "fio0", "location0", "comment0",
       (toOrdinal 2023 8 28 : Int) * 1440 + 480, (toOrdinal 2023 8 28 : Int) * 1440 + 560⟩ =
      .ok 1 :=
  C9_daily_number.2.2 _ rfl

/-! ## Claim C10: falsy semester type 0 -/

/-- C10 (confirmed): because `get_events` resolves the semester type with
the truthiness test `semester_type or self.get_semester_type()`, passing the
integer 0 does not raise an invalid-enum `ValueError` — it silently falls
back to the classification computed for the current date, exactly as if no
semester type had been supplied — while an out-of-range truthy integer such
as 3 does raise the invalid-enum `ValueError`. -/
theorem C10_semester_type_zero :
    (∀ cur, resolve_semester_type (some 0) cur = .ok cur) ∧
    (∀ cur, resolve_semester_type (some 3) cur = .error (.valueError "is not a valid SemesterType")) ∧
    (∀ cur, resolve_semester_type none cur = .ok cur) :=
  ⟨fun _ => rfl, fun _ => rfl, fun _ => rfl⟩

end UUST
